import Mathlib

/-!
Shallow embedding of the enforcement logic of `main.py` in the
telegram-bot-force-to-join repository: the per-user sliding-window
anti-spam check, the warning ledger, the join-reminder throttle, the
admin reset command and the daily reset, modelled as pure state
transitions.  Timestamps are integers (seconds); the transport side
effects of a handler invocation are returned as a list of `Effect`
values in execution order.
-/

namespace ForceJoinBot

/-- Configuration constant `SPAM_MAX_MSG = 5` (max messages in the window). -/
def SPAM_MAX_MSG : Nat := 5

/-- Configuration constant `SPAM_WINDOW_SEC = 10` (window length, seconds). -/
def SPAM_WINDOW_SEC : Int := 10

/-- Configuration constant `WARNING_AUTO_DELETE_SEC = 60` (notice auto-delete). -/
def WARNING_AUTO_DELETE_SEC : Int := 60

/-- Reminder throttle used in `on_group_message`: the code compares the age
of the last reminder against `timedelta(minutes=2)`, i.e. 120 seconds. -/
def REMINDER_THROTTLE_SEC : Int := 120

/-- Per-user mutable state of `ChannelEnforcementBot`: `msg_times` is a
defaultdict of timestamp deques (default empty), `warnings` a defaultdict
of counts (default 0), `last_reminder` a plain dict (absent key is `none`). -/
structure BotState where
  msg_times : Int → List Int
  warnings : Int → Nat
  last_reminder : Int → Option Int

/-- Freshly constructed state: all three maps are empty. -/
def initState : BotState :=
  { msg_times := fun _ => [], warnings := fun _ => 0, last_reminder := fun _ => none }

/-- Outcome of the transport call `get_chat_member`: the exceptions caught
by `is_user_in_channel` are `BadRequest` and `Forbidden`. -/
inductive ApiError where
  | badRequest
  | forbidden
  deriving DecidableEq

/-- Statuses accepted as channel membership by `is_user_in_channel`. -/
def memberStatuses : List String := ["member", "administrator", "creator", "owner"]

/-- Statuses accepted by the `resetwarnings` admin gate. -/
def adminStatuses : List String := ["administrator", "creator"]

/-- Embedding of `is_user_in_channel`: the argument is the result of the
`get_chat_member` call (`Except.error` for a raised `BadRequest` or
`Forbidden`); on success the status string is tested for membership, on
error the method returns `False`. -/
def is_user_in_channel (r : Except ApiError String) : Bool :=
  match r with
  | .ok st => memberStatuses.contains st
  | .error _ => false

/-- The purge loop of `on_group_message`:
`while dq and dq[0] < cutoff: dq.popleft()`. -/
def purgeOld (cutoff : Int) : List Int → List Int
  | [] => []
  | t :: rest => if t < cutoff then purgeOld cutoff rest else t :: rest

/-- The window of user `u` recomputed when a message arrives at time `now`:
append `now`, then purge entries older than `now - SPAM_WINDOW_SEC`. -/
def windowAt (s : BotState) (u : Int) (now : Int) : List Int :=
  purgeOld (now - SPAM_WINDOW_SEC) (s.msg_times u ++ [now])

/-- The reminder-throttle test of `on_group_message`:
`if not last or (datetime.now(tz=TZ) - last) > timedelta(minutes=2)`. -/
def shouldRemind (last : Option Int) (now : Int) : Bool :=
  match last with
  | none => true
  | some t => decide (REMINDER_THROTTLE_SEC < now - t)

/-- An incoming update as seen by `on_group_message`: whether
`update.message` is set, the sender id and the chat id. -/
structure GroupMsg where
  hasMessage : Bool
  userId : Int
  chatId : Int

/-- Transport side effects emitted by one `on_group_message` invocation,
in execution order. -/
inductive Effect where
  | deleteMessage
  | sendWarning (count : Nat)
  | queryMembership
  | sendReminder
  deriving DecidableEq

/-- True when the effect list contains a spam warning, i.e. the message
was classified spam. -/
def warned (effs : List Effect) : Bool :=
  effs.any fun e =>
    match e with
    | Effect.sendWarning _ => true
    | _ => false

/-- Embedding of `on_group_message`: ignore updates without a message and
self messages; append the arrival time to the sender's deque and purge old
entries; if the window holds more than `SPAM_MAX_MSG` entries, delete the
message, bump the warning count and send the warning with the new count,
then return; otherwise run the membership check and, for non-members,
delete the message and send a throttled join reminder.  `oracle` is the
result of the `get_chat_member` call for this sender. -/
def on_group_message (botId : Int) (oracle : Except ApiError String)
    (m : GroupMsg) (now : Int) (s : BotState) : BotState × List Effect :=
  if m.hasMessage = false then (s, [])
  else if m.userId = botId then (s, [])
  else
    let dq := windowAt s m.userId now
    let s1 : BotState := { s with msg_times := Function.update s.msg_times m.userId dq }
    if SPAM_MAX_MSG < dq.length then
      let c := s1.warnings m.userId + 1
      ({ s1 with warnings := Function.update s1.warnings m.userId c },
        [Effect.deleteMessage, Effect.sendWarning c])
    else if is_user_in_channel oracle = false then
      if shouldRemind (s1.last_reminder m.userId) now then
        ({ s1 with last_reminder := Function.update s1.last_reminder m.userId (some now) },
          [Effect.queryMembership, Effect.deleteMessage, Effect.sendReminder])
      else
        (s1, [Effect.queryMembership, Effect.deleteMessage])
    else
      (s1, [Effect.queryMembership])

/-- Text of the spam warning built by `send_spam_warning`; the warning
count is interpolated verbatim at the end. -/
def spamWarningText (userName : String) (count : Nat) : String :=
  "بەڕێز " ++ userName ++ "\nپەیامێکی نایاسایی نارد\nژمارەی ئاگاداریەکان " ++ toString count

/-- Replies sent by the `resetwarnings` command handler. -/
inductive Notice where
  | rejection
  | confirmation
  deriving DecidableEq

/-- Embedding of `cmd_reset_warnings`: `lookup` is the result of the
`get_chat_member` call on the caller (`none` when it raises).  On a
successful lookup a non-admin status gets the rejection reply and nothing
else; otherwise — including the exception path, where the bare
`except Exception: pass` falls through — the whole warnings dict is
cleared and the confirmation reply is sent. -/
def cmd_reset_warnings (lookup : Option String) (s : BotState) :
    BotState × List Notice :=
  match lookup with
  | some st =>
    if adminStatuses.contains st = false then
      (s, [Notice.rejection])
    else
      ({ s with warnings := fun _ => 0 }, [Notice.confirmation])
  | none =>
    ({ s with warnings := fun _ => 0 }, [Notice.confirmation])

/-- One invocation of `cmd_reset_warnings` by a caller whose actual status
in the chat is `callerStatus`; when `lookupFails` is true the
`get_chat_member` call raises, so the handler never sees the status. -/
def cmd_reset_warnings_run (callerStatus : String) (lookupFails : Bool)
    (s : BotState) : BotState × List Notice :=
  cmd_reset_warnings (if lookupFails then none else some callerStatus) s

/-- Embedding of `reset_warnings_daily`, the job scheduled at 00:00 in the
configured time zone: clears `warnings`, `msg_times` and `last_reminder`. -/
def reset_warnings_daily (s : BotState) : BotState :=
  { s with warnings := fun _ => 0, msg_times := fun _ => [], last_reminder := fun _ => none }

/-! Branch characterizations of `on_group_message`. -/

theorem onmsg_no_message (botId : Int) (oracle : Except ApiError String)
    (m : GroupMsg) (now : Int) (s : BotState) (h : m.hasMessage = false) :
    on_group_message botId oracle m now s = (s, []) := by
  simp [on_group_message, h]

theorem onmsg_self (botId : Int) (oracle : Except ApiError String)
    (m : GroupMsg) (now : Int) (s : BotState) (h : m.userId = botId) :
    on_group_message botId oracle m now s = (s, []) := by
  cases hm : m.hasMessage with
  | false => simp [on_group_message, hm]
  | true => simp [on_group_message, hm, h]

theorem onmsg_spam (botId : Int) (oracle : Except ApiError String)
    (m : GroupMsg) (now : Int) (s : BotState)
    (h1 : m.hasMessage = true) (h2 : m.userId ≠ botId)
    (hs : SPAM_MAX_MSG < (windowAt s m.userId now).length) :
    on_group_message botId oracle m now s =
      ({ msg_times := Function.update s.msg_times m.userId (windowAt s m.userId now),
         warnings := Function.update s.warnings m.userId (s.warnings m.userId + 1),
         last_reminder := s.last_reminder },
       [Effect.deleteMessage, Effect.sendWarning (s.warnings m.userId + 1)]) := by
  simp [on_group_message, h1, h2, hs]

theorem onmsg_nonmember_remind (botId : Int) (oracle : Except ApiError String)
    (m : GroupMsg) (now : Int) (s : BotState)
    (h1 : m.hasMessage = true) (h2 : m.userId ≠ botId)
    (hns : ¬ SPAM_MAX_MSG < (windowAt s m.userId now).length)
    (hnm : is_user_in_channel oracle = false)
    (hr : shouldRemind (s.last_reminder m.userId) now = true) :
    on_group_message botId oracle m now s =
      ({ msg_times := Function.update s.msg_times m.userId (windowAt s m.userId now),
         warnings := s.warnings,
         last_reminder := Function.update s.last_reminder m.userId (some now) },
       [Effect.queryMembership, Effect.deleteMessage, Effect.sendReminder]) := by
  simp [on_group_message, h1, h2, hns, hnm, hr]

theorem onmsg_nonmember_throttled (botId : Int) (oracle : Except ApiError String)
    (m : GroupMsg) (now : Int) (s : BotState)
    (h1 : m.hasMessage = true) (h2 : m.userId ≠ botId)
    (hns : ¬ SPAM_MAX_MSG < (windowAt s m.userId now).length)
    (hnm : is_user_in_channel oracle = false)
    (hr : shouldRemind (s.last_reminder m.userId) now = false) :
    on_group_message botId oracle m now s =
      ({ msg_times := Function.update s.msg_times m.userId (windowAt s m.userId now),
         warnings := s.warnings,
         last_reminder := s.last_reminder },
       [Effect.queryMembership, Effect.deleteMessage]) := by
  simp [on_group_message, h1, h2, hns, hnm, hr]

theorem onmsg_member (botId : Int) (oracle : Except ApiError String)
    (m : GroupMsg) (now : Int) (s : BotState)
    (h1 : m.hasMessage = true) (h2 : m.userId ≠ botId)
    (hns : ¬ SPAM_MAX_MSG < (windowAt s m.userId now).length)
    (hm : is_user_in_channel oracle = true) :
    on_group_message botId oracle m now s =
      ({ msg_times := Function.update s.msg_times m.userId (windowAt s m.userId now),
         warnings := s.warnings,
         last_reminder := s.last_reminder },
       [Effect.queryMembership]) := by
  simp [on_group_message, h1, h2, hns, hm]

/-! Lemmas about the purge loop. -/

theorem purgeOld_eq_nil (c : Int) (l : List Int) (h : ∀ t ∈ l, t < c) :
    purgeOld c l = [] := by
  induction l with
  | nil => rfl
  | cons a l ih =>
    rw [purgeOld, if_pos (h a (by simp))]
    exact ih fun t ht => h t (by simp [ht])

theorem purgeOld_mem_ge (c : Int) (l : List Int) (hs : List.Sorted (· ≤ ·) l) :
    ∀ t ∈ purgeOld c l, c ≤ t := by
  induction l with
  | nil => intro t ht; simp [purgeOld] at ht
  | cons a l ih =>
    rw [List.sorted_cons] at hs
    intro t ht
    rw [purgeOld] at ht
    by_cases hac : a < c
    · rw [if_pos hac] at ht
      exact ih hs.2 t ht
    · rw [if_neg hac] at ht
      rcases List.mem_cons.mp ht with rfl | htl
      · exact le_of_not_lt hac
      · exact le_trans (le_of_not_lt hac) (hs.1 t htl)

theorem purgeOld_mem_append_last (c : Int) (xs : List Int) (now : Int)
    (h : ¬ now < c) : now ∈ purgeOld c (xs ++ [now]) := by
  induction xs with
  | nil => simp [purgeOld, h]
  | cons a xs ih =>
    by_cases hac : a < c
    · simpa [purgeOld, hac] using ih
    · simp [purgeOld, hac]

theorem warnings_le_step (botId : Int) (oracle : Except ApiError String)
    (m : GroupMsg) (now : Int) (s : BotState) (v : Int) :
    s.warnings v ≤ ((on_group_message botId oracle m now s).1).warnings v := by
  cases h0 : m.hasMessage with
  | false => rw [onmsg_no_message botId oracle m now s h0]
  | true =>
    by_cases hb : m.userId = botId
    · rw [onmsg_self botId oracle m now s hb]
    · by_cases hs : SPAM_MAX_MSG < (windowAt s m.userId now).length
      · rw [onmsg_spam botId oracle m now s h0 hb hs]
        by_cases hv : v = m.userId
        · subst hv
          simp [Function.update]
        · simp [Function.update_noteq hv]
      · cases hc : is_user_in_channel oracle with
        | true => rw [onmsg_member botId oracle m now s h0 hb hs hc]
        | false =>
          cases hr : shouldRemind (s.last_reminder m.userId) now with
          | true => rw [onmsg_nonmember_remind botId oracle m now s h0 hb hs hc hr]
          | false => rw [onmsg_nonmember_throttled botId oracle m now s h0 hb hs hc hr]

/-! Claim theorems. -/

/-- C4: the daily reset clears the whole rate-limit window state, the
whole warning ledger and every last-reminder entry, so any message handled
right after the reset is handled exactly as on the freshly built state. -/
theorem daily_reset_clears_all (s : BotState) :
    reset_warnings_daily s = initState ∧
    (∀ v, (reset_warnings_daily s).msg_times v = [] ∧
      (reset_warnings_daily s).warnings v = 0 ∧
      (reset_warnings_daily s).last_reminder v = none) ∧
    (∀ (botId : Int) (oracle : Except ApiError String) (m : GroupMsg) (now : Int),
      on_group_message botId oracle m now (reset_warnings_daily s) =
        on_group_message botId oracle m now initState) :=
  ⟨rfl, fun _ => ⟨rfl, rfl, rfl⟩, fun _ _ _ _ => rfl⟩

/-- C7: when the membership oracle raises (`BadRequest` or `Forbidden`),
`is_user_in_channel` returns `false`, and the whole handler behaves exactly
as for a user whose status is not in the accepted list: the failure is
absorbed, never propagated. -/
theorem membership_fail_closed :
    (∀ e : ApiError, is_user_in_channel (Except.error e) = false) ∧
    (∀ (botId : Int) (e : ApiError) (m : GroupMsg) (now : Int) (s : BotState),
      on_group_message botId (Except.error e) m now s =
        on_group_message botId (Except.ok "left") m now s) :=
  ⟨fun _ => rfl, fun _ _ _ _ _ => rfl⟩

/-- C9: a group message whose sender is the bot itself is ignored: the
handler returns with no effects and every user's window, warning count and
last-reminder entry unchanged. -/
theorem self_message_frame (botId : Int) (oracle : Except ApiError String)
    (m : GroupMsg) (now : Int) (s : BotState) (hbot : m.userId = botId) :
    on_group_message botId oracle m now s = (s, []) ∧
    (∀ v, (on_group_message botId oracle m now s).1.msg_times v = s.msg_times v ∧
      (on_group_message botId oracle m now s).1.warnings v = s.warnings v ∧
      (on_group_message botId oracle m now s).1.last_reminder v = s.last_reminder v) := by
  have h := onmsg_self botId oracle m now s hbot
  exact ⟨h, fun v => by rw [h]; exact ⟨rfl, rfl, rfl⟩⟩

/-- Witness for C9 at a concrete input: the bot id 99 sending at time 5
into a state with warnings 7 pinned to 2 leaves everything unchanged. -/
theorem self_message_frame_witness :
    on_group_message 99 (Except.ok "member") ⟨true, 99, 1⟩ 5
        { initState with warnings := Function.update initState.warnings 7 2 } =
      ({ initState with warnings := Function.update initState.warnings 7 2 }, []) :=
  (self_message_frame 99 (Except.ok "member") ⟨true, 99, 1⟩ 5
    { initState with warnings := Function.update initState.warnings 7 2 } rfl).1

/-- C3 (failing input): the `resetwarnings` handler wraps the admin check
in a bare `except Exception: pass`, so when `get_chat_member` raises, a
caller whose actual status is plain `member` — not an admin — still gets
the whole warning ledger cleared and the confirmation reply instead of the
rejection. -/
theorem resetwarnings_admin_gate_bypass :
    adminStatuses.contains "member" = false ∧
    ({ initState with warnings := Function.update initState.warnings 7 3 } :
        BotState).warnings 7 = 3 ∧
    (cmd_reset_warnings_run "member" true
      { initState with warnings := Function.update initState.warnings 7 3 }).1.warnings 7 = 0 ∧
    (cmd_reset_warnings_run "member" true
      { initState with warnings := Function.update initState.warnings 7 3 }).2 =
      [Notice.confirmation] := by
  refine ⟨rfl, ?_, rfl, rfl⟩
  simp [initState, Function.update]

theorem shouldRemind_iff (last : Option Int) (now : Int) :
    shouldRemind last now = true ↔
      (last = none ∨ ∃ t, last = some t ∧ REMINDER_THROTTLE_SEC < now - t) := by
  cases last with
  | none => simp [shouldRemind]
  | some t => simp [shouldRemind]

/-- C1: after appending the arrival time and purging entries older than
`now - SPAM_WINDOW_SEC`, a message is classified spam iff the window holds
strictly more than `SPAM_MAX_MSG` entries; exactly `SPAM_MAX_MSG` entries
is allowed and `SPAM_MAX_MSG + 1` entries is classified spam. -/
theorem spam_threshold_strict (botId : Int) (oracle : Except ApiError String)
    (m : GroupMsg) (now : Int) (s : BotState)
    (h1 : m.hasMessage = true) (h2 : m.userId ≠ botId) :
    (warned (on_group_message botId oracle m now s).2 = true ↔
      SPAM_MAX_MSG < (windowAt s m.userId now).length) ∧
    ((windowAt s m.userId now).length = SPAM_MAX_MSG →
      warned (on_group_message botId oracle m now s).2 = false) ∧
    ((windowAt s m.userId now).length = SPAM_MAX_MSG + 1 →
      warned (on_group_message botId oracle m now s).2 = true) := by
  by_cases hs : SPAM_MAX_MSG < (windowAt s m.userId now).length
  · rw [onmsg_spam botId oracle m now s h1 h2 hs]
    refine ⟨iff_of_true (by simp [warned]) hs, ?_, fun _ => by simp [warned]⟩
    intro hlen
    rw [hlen] at hs
    exact absurd hs (lt_irrefl _)
  · have hw : warned (on_group_message botId oracle m now s).2 = false := by
      cases hc : is_user_in_channel oracle with
      | true =>
        rw [onmsg_member botId oracle m now s h1 h2 hs hc]
        simp [warned]
      | false =>
        cases hr : shouldRemind (s.last_reminder m.userId) now with
        | true =>
          rw [onmsg_nonmember_remind botId oracle m now s h1 h2 hs hc hr]
          simp [warned]
        | false =>
          rw [onmsg_nonmember_throttled botId oracle m now s h1 h2 hs hc hr]
          simp [warned]
    refine ⟨iff_of_false (by simp [hw]) hs, fun _ => hw, fun hlen => ?_⟩
    exact absurd (hlen ▸ Nat.lt_succ_self SPAM_MAX_MSG) hs

/-- Witness for C1: with four timestamps on record, a fifth message at
time 5 keeps the window at exactly `SPAM_MAX_MSG` and is allowed; with
five on record, a sixth message makes `SPAM_MAX_MSG + 1` and is spam. -/
theorem spam_threshold_strict_witness :
    warned (on_group_message 99 (Except.ok "member") ⟨true, 7, 1⟩ 5
      { initState with msg_times := Function.update initState.msg_times 7 [1, 2, 3, 4] }).2
      = false ∧
    warned (on_group_message 99 (Except.ok "member") ⟨true, 7, 1⟩ 6
      { initState with msg_times := Function.update initState.msg_times 7 [1, 2, 3, 4, 5] }).2
      = true :=
  ⟨(spam_threshold_strict 99 (Except.ok "member") ⟨true, 7, 1⟩ 5
      { initState with msg_times := Function.update initState.msg_times 7 [1, 2, 3, 4] }
      rfl (by decide)).2.1 (by decide),
   (spam_threshold_strict 99 (Except.ok "member") ⟨true, 7, 1⟩ 6
      { initState with msg_times := Function.update initState.msg_times 7 [1, 2, 3, 4, 5] }
      rfl (by decide)).2.2 (by decide)⟩

/-- C2: for a non-member, non-spam message the handler always deletes the
message, sends the join reminder iff the throttle test passes — i.e. iff
the last-reminder entry is absent or strictly older than
`REMINDER_THROTTLE_SEC` — and records the reminder time when it does. -/
theorem reminder_throttle_iff (botId : Int) (oracle : Except ApiError String)
    (m : GroupMsg) (now : Int) (s : BotState)
    (h1 : m.hasMessage = true) (h2 : m.userId ≠ botId)
    (hns : ¬ SPAM_MAX_MSG < (windowAt s m.userId now).length)
    (hnm : is_user_in_channel oracle = false) :
    Effect.deleteMessage ∈ (on_group_message botId oracle m now s).2 ∧
    (Effect.sendReminder ∈ (on_group_message botId oracle m now s).2 ↔
      shouldRemind (s.last_reminder m.userId) now = true) ∧
    (shouldRemind (s.last_reminder m.userId) now = true ↔
      (s.last_reminder m.userId = none ∨
        ∃ t, s.last_reminder m.userId = some t ∧ REMINDER_THROTTLE_SEC < now - t)) ∧
    (shouldRemind (s.last_reminder m.userId) now = true →
      (on_group_message botId oracle m now s).1.last_reminder m.userId = some now) := by
  refine ⟨?_, ?_, shouldRemind_iff _ _, ?_⟩
  · cases hr : shouldRemind (s.last_reminder m.userId) now with
    | true =>
      rw [onmsg_nonmember_remind botId oracle m now s h1 h2 hns hnm hr]
      simp
    | false =>
      rw [onmsg_nonmember_throttled botId oracle m now s h1 h2 hns hnm hr]
      simp
  · cases hr : shouldRemind (s.last_reminder m.userId) now with
    | true =>
      rw [onmsg_nonmember_remind botId oracle m now s h1 h2 hns hnm hr]
      simp
    | false =>
      rw [onmsg_nonmember_throttled botId oracle m now s h1 h2 hns hnm hr]
      simp
  · cases hr : shouldRemind (s.last_reminder m.userId) now with
    | true =>
      rw [onmsg_nonmember_remind botId oracle m now s h1 h2 hns hnm hr]
      intro _
      simp [Function.update]
    | false =>
      intro h
      exact absurd h (by simp)

/-- Witness for C2: a first non-member message from user 7 at time 100
draws a reminder; a second one at time 101 — one second later — is still
deleted but draws no second reminder. -/
theorem reminder_throttle_iff_witness :
    Effect.sendReminder ∈ (on_group_message 99 (Except.error ApiError.forbidden)
      ⟨true, 7, 1⟩ 100 initState).2 ∧
    Effect.deleteMessage ∈ (on_group_message 99 (Except.error ApiError.forbidden)
      ⟨true, 7, 1⟩ 101
      (on_group_message 99 (Except.error ApiError.forbidden) ⟨true, 7, 1⟩ 100 initState).1).2 ∧
    Effect.sendReminder ∉ (on_group_message 99 (Except.error ApiError.forbidden)
      ⟨true, 7, 1⟩ 101
      (on_group_message 99 (Except.error ApiError.forbidden) ⟨true, 7, 1⟩ 100 initState).1).2 := by
  have hthm1 := reminder_throttle_iff 99 (Except.error ApiError.forbidden) ⟨true, 7, 1⟩
    100 initState rfl (by decide) (by decide) rfl
  have hthm2 := reminder_throttle_iff 99 (Except.error ApiError.forbidden) ⟨true, 7, 1⟩
    101 (on_group_message 99 (Except.error ApiError.forbidden) ⟨true, 7, 1⟩ 100 initState).1
    rfl (by decide) (by decide) rfl
  exact ⟨hthm1.2.1.mpr (by decide), hthm2.1, fun h => absurd (hthm2.2.1.mp h) (by decide)⟩

/-- C5: warning counts never decrease across a handler invocation; a spam
classification bumps the sender's count by exactly one and the warning
effect carries the post-increment count, which `spamWarningText` splices
verbatim at the end of the user-facing text. -/
theorem warning_bump_exact (botId : Int) (oracle : Except ApiError String)
    (m : GroupMsg) (now : Int) (s : BotState) :
    (∀ v, s.warnings v ≤ (on_group_message botId oracle m now s).1.warnings v) ∧
    (m.hasMessage = true → m.userId ≠ botId →
      SPAM_MAX_MSG < (windowAt s m.userId now).length →
      ((on_group_message botId oracle m now s).1.warnings m.userId =
          s.warnings m.userId + 1 ∧
        Effect.sendWarning (s.warnings m.userId + 1) ∈
          (on_group_message botId oracle m now s).2)) ∧
    (∀ nm k, spamWarningText nm k =
      "بەڕێز " ++ nm ++ "\nپەیامێکی نایاسایی نارد\nژمارەی ئاگاداریەکان " ++ toString k) := by
  refine ⟨warnings_le_step botId oracle m now s, ?_, fun _ _ => rfl⟩
  intro h1 h2 hs
  rw [onmsg_spam botId oracle m now s h1 h2 hs]
  exact ⟨by simp [Function.update], by simp⟩

/-- Witness for C5: user 7 with five recorded timestamps sends a sixth
message at time 5; the count goes from 0 to exactly 1 and the warning
effect carries 1. -/
theorem warning_bump_exact_witness :
    (on_group_message 99 (Except.ok "member") ⟨true, 7, 1⟩ 5
      { initState with msg_times := Function.update initState.msg_times 7 [0, 1, 2, 3, 4] }
      ).1.warnings 7 = 1 ∧
    Effect.sendWarning 1 ∈ (on_group_message 99 (Except.ok "member") ⟨true, 7, 1⟩ 5
      { initState with msg_times := Function.update initState.msg_times 7 [0, 1, 2, 3, 4] }).2 :=
  (warning_bump_exact 99 (Except.ok "member") ⟨true, 7, 1⟩ 5
    { initState with msg_times := Function.update initState.msg_times 7 [0, 1, 2, 3, 4] }
    ).2.1 rfl (by decide) (by decide)

/-- C6: a spam-classified message produces exactly the deletion and the
warning notice — in particular no membership query — and leaves every
last-reminder entry untouched. -/
theorem spam_short_circuit (botId : Int) (oracle : Except ApiError String)
    (m : GroupMsg) (now : Int) (s : BotState)
    (h1 : m.hasMessage = true) (h2 : m.userId ≠ botId)
    (hs : SPAM_MAX_MSG < (windowAt s m.userId now).length) :
    (on_group_message botId oracle m now s).2 =
      [Effect.deleteMessage, Effect.sendWarning (s.warnings m.userId + 1)] ∧
    Effect.queryMembership ∉ (on_group_message botId oracle m now s).2 ∧
    ∀ v, (on_group_message botId oracle m now s).1.last_reminder v = s.last_reminder v := by
  rw [onmsg_spam botId oracle m now s h1 h2 hs]
  exact ⟨rfl, by simp, fun v => rfl⟩

/-- Witness for C6: the spam-classified sixth message of user 7 yields
only the deletion and the warning, no membership query, and the reminder
map stays empty. -/
theorem spam_short_circuit_witness :
    (on_group_message 99 (Except.ok "member") ⟨true, 7, 1⟩ 5
      { initState with msg_times := Function.update initState.msg_times 7 [0, 1, 2, 3, 4] }).2 =
      [Effect.deleteMessage, Effect.sendWarning 1] ∧
    Effect.queryMembership ∉ (on_group_message 99 (Except.ok "member") ⟨true, 7, 1⟩ 5
      { initState with msg_times := Function.update initState.msg_times 7 [0, 1, 2, 3, 4] }).2 ∧
    (on_group_message 99 (Except.ok "member") ⟨true, 7, 1⟩ 5
      { initState with msg_times := Function.update initState.msg_times 7 [0, 1, 2, 3, 4] }
      ).1.last_reminder 7 = none := by
  have h := spam_short_circuit 99 (Except.ok "member") ⟨true, 7, 1⟩ 5
    { initState with msg_times := Function.update initState.msg_times 7 [0, 1, 2, 3, 4] }
    rfl (by decide) (by decide)
  exact ⟨h.1, h.2.1, h.2.2 7⟩

/-- C8: when strictly more than `SPAM_WINDOW_SEC` seconds have passed
since every entry, the purge at `now` empties the window; and after any
purge at `now` every surviving timestamp is at least `now - SPAM_WINDOW_SEC`
(given the chronological ordering of the deque). -/
theorem window_purge_invariant (dq : List Int) (now : Int)
    (hsorted : List.Sorted (· ≤ ·) dq) :
    ((∀ t ∈ dq, SPAM_WINDOW_SEC < now - t) →
      purgeOld (now - SPAM_WINDOW_SEC) dq = []) ∧
    (∀ t ∈ purgeOld (now - SPAM_WINDOW_SEC) dq, now - SPAM_WINDOW_SEC ≤ t) := by
  refine ⟨fun h => purgeOld_eq_nil _ _ fun t ht => ?_, purgeOld_mem_ge _ _ hsorted⟩
  have := h t ht
  omega

/-- Witness for C8: three timestamps all more than `SPAM_WINDOW_SEC`
seconds old at time 20 are fully purged. -/
theorem window_purge_invariant_witness :
    purgeOld (20 - SPAM_WINDOW_SEC) [1, 2, 3] = [] ∧
    (∀ t ∈ purgeOld (20 - SPAM_WINDOW_SEC) [1, 2, 3], 20 - SPAM_WINDOW_SEC ≤ t) := by
  have h := window_purge_invariant [1, 2, 3] 20 (by decide)
  exact ⟨h.1 (by decide), h.2⟩

/-- C10: a spam classification keeps the (purged) window, including the
spam message's own timestamp; a following message from the same user
whose recomputed window still holds more than `SPAM_MAX_MSG` entries is
classified spam as well, taking the warning count to the original value
plus two. -/
theorem spam_keeps_window (botId : Int) (oracle oracle2 : Except ApiError String)
    (m m2 : GroupMsg) (now now2 : Int) (s : BotState)
    (h1 : m.hasMessage = true) (h2 : m.userId ≠ botId)
    (hs : SPAM_MAX_MSG < (windowAt s m.userId now).length)
    (h1b : m2.hasMessage = true) (h2b : m2.userId = m.userId) :
    ((on_group_message botId oracle m now s).1.msg_times m.userId =
      windowAt s m.userId now) ∧
    now ∈ (on_group_message botId oracle m now s).1.msg_times m.userId ∧
    (SPAM_MAX_MSG <
        (windowAt (on_group_message botId oracle m now s).1 m.userId now2).length →
      warned (on_group_message botId oracle2 m2 now2
        (on_group_message botId oracle m now s).1).2 = true ∧
      (on_group_message botId oracle2 m2 now2
        (on_group_message botId oracle m now s).1).1.warnings m.userId =
        s.warnings m.userId + 2) := by
  have hstep := onmsg_spam botId oracle m now s h1 h2 hs
  have hwin : (on_group_message botId oracle m now s).1.msg_times m.userId =
      windowAt s m.userId now := by
    rw [hstep]
    simp [Function.update]
  have hw1 : (on_group_message botId oracle m now s).1.warnings m.userId =
      s.warnings m.userId + 1 := by
    rw [hstep]
    simp [Function.update]
  have hmem : now ∈ windowAt s m.userId now := by
    apply purgeOld_mem_append_last
    simp [SPAM_WINDOW_SEC]
  refine ⟨hwin, hwin ▸ hmem, fun hs2 => ?_⟩
  have h2b2 : m2.userId ≠ botId := by rw [h2b]; exact h2
  have hs2b : SPAM_MAX_MSG <
      (windowAt (on_group_message botId oracle m now s).1 m2.userId now2).length := by
    rw [h2b]; exact hs2
  have hstep2 := onmsg_spam botId oracle2 m2 now2
    (on_group_message botId oracle m now s).1 h1b h2b2 hs2b
  rw [h2b] at hstep2
  constructor
  · rw [hstep2]
    simp [warned]
  · rw [hstep2]
    simp only [Function.update_same]
    rw [hw1]

/-- Witness for C10: user 7 sends messages at times 0..5 — the sixth is
spam — then a seventh at time 6 while all previous timestamps are still
inside the window: it is spam too and the count reaches 2. -/
theorem spam_keeps_window_witness :
    5 ∈ (on_group_message 99 (Except.ok "member") ⟨true, 7, 1⟩ 5
      { initState with msg_times := Function.update initState.msg_times 7 [0, 1, 2, 3, 4] }
      ).1.msg_times 7 ∧
    warned (on_group_message 99 (Except.ok "member") ⟨true, 7, 1⟩ 6
      (on_group_message 99 (Except.ok "member") ⟨true, 7, 1⟩ 5
        { initState with msg_times := Function.update initState.msg_times 7 [0, 1, 2, 3, 4] }
        ).1).2 = true ∧
    (on_group_message 99 (Except.ok "member") ⟨true, 7, 1⟩ 6
      (on_group_message 99 (Except.ok "member") ⟨true, 7, 1⟩ 5
        { initState with msg_times := Function.update initState.msg_times 7 [0, 1, 2, 3, 4] }
        ).1).1.warnings 7 = 2 := by
  have h := spam_keeps_window 99 (Except.ok "member") (Except.ok "member")
    ⟨true, 7, 1⟩ ⟨true, 7, 1⟩ 5 6
    { initState with msg_times := Function.update initState.msg_times 7 [0, 1, 2, 3, 4] }
    rfl (by decide) (by decide) rfl rfl
  exact ⟨h.2.1, (h.2.2 (by decide)).1, (h.2.2 (by decide)).2⟩

end ForceJoinBot
